import Mathlib

/-!
Verification development for the position-lifecycle trading engine in
`src/main.py`.  The Python source is shallowly embedded: prices, capital and
quantities (Python floats / `Decimal`s) are modelled as rationals `ℚ`, the
JSON position table as an association list keyed by symbol, and every
exchange interaction (order placement, status polls, ticker fetches) as an
explicit environment/oracle parameter, so that each embedded operation is a
pure, executable Lean function.
-/

attribute [local semireducible] Rat.add Rat.mul Rat.sub Rat.inv

namespace RenderV3

/-- One entry of the `LEVELS` ladder configuration (`main.py`, lines 57-63):
`{"capital": ..., "leverage": ..., "tp_pct": ..., "sl_pct": ...}`. -/
structure LevelConfig where
  capital : ℚ
  leverage : ℚ
  tp_pct : ℚ
  sl_pct : ℚ
deriving DecidableEq

/-- The static five-level ladder from `main.py` lines 57-63
(4.5 = 9/2, 9.5 = 19/2, 0.003 = 3/1000). -/
def LEVELS : List LevelConfig :=
  [ ⟨1, 50, 3/1000, 3/1000⟩,
    ⟨2, 50, 3/1000, 3/1000⟩,
    ⟨9/2, 50, 3/1000, 3/1000⟩,
    ⟨19/2, 50, 3/1000, 3/1000⟩,
    ⟨16, 65, 3/1000, 3/1000⟩ ]

/-- A persisted position record, mirroring the dict written at
`main.py` lines 763-776 (reinforcement update) and 844-859 (fresh open).
The Python dicts carry exactly these keys; `.get` defaults in the source
are noted where they matter.  Order ids are `Option Nat` because the
protective legs may fail to place (`place_tp_sl_orders_with_retry`
returns `None` for a failed leg). -/
structure Position where
  signal : String
  current_level : Nat
  is_active : Bool
  pending_reinforcement : Bool
  next_level : Nat
  quantity : ℚ
  entry_price : ℚ
  capital : ℚ
  leverage : ℚ
  order_id : Nat
  tp_order_id : Option Nat
  sl_order_id : Option Nat
  alert_id : String
  timestamp : String
deriving DecidableEq

/-- The durable state snapshot `{"positions": {...}, "processed_alerts": {...}}`
(`load_state` / `save_state`, `main.py` lines 75-90).  Python dicts are
modelled as association lists without duplicate keys; `processed_alerts`
maps a dedup key to the epoch second it was first processed. -/
structure State where
  positions : List (String × Position)
  processed_alerts : List (String × Int)
deriving DecidableEq

/-- Dict lookup `positions[symbol]` / `symbol in positions`. -/
def lookupPos : List (String × Position) → String → Option Position
  | [], _ => none
  | (k, v) :: rest, s => if k = s then some v else lookupPos rest s

/-- Dict assignment `positions[symbol] = v` (replaces an existing entry,
otherwise appends). -/
def insertPos : List (String × Position) → String → Position → List (String × Position)
  | [], s, v => [(s, v)]
  | (k, w) :: rest, s, v =>
    if k = s then (s, v) :: rest else (k, w) :: insertPos rest s v

/-- Dict deletion `del positions[symbol]`. -/
def erasePos : List (String × Position) → String → List (String × Position)
  | [], _ => []
  | (k, w) :: rest, s => if k = s then rest else (k, w) :: erasePos rest s

/-- Key-membership test `alert_id in processed` on the dedup table. -/
def memKey (l : List (String × Int)) (k : String) : Bool :=
  l.any (fun e => e.1 == k)

/-- Python `str.upper()` on the ASCII direction strings the system
handles, character by character. -/
def pyUpper (s : String) : String := ⟨s.data.map Char.toUpper⟩

/-- Embedding of `signal.upper() == "BUY"`: the source treats any direction string whose
upper-casing is not `"BUY"` as a SELL. -/
def isBuy (signal : String) : Bool := pyUpper signal == "BUY"

/-- Python `Decimal` floor division `q // step` truncates toward zero
(`round_qty`, `main.py` line 337). -/
def decimalFloorDiv (q step : ℚ) : ℤ :=
  if 0 ≤ q / step then ⌊q / step⌋ else -⌊-(q / step)⌋

/-- Embedding of `round_qty(qty, step)` (`main.py` lines 334-338):
`(Decimal(qty) // Decimal(step)) * Decimal(step)`, quantized to the step's
decimal exponent with `ROUND_DOWN`.  Since the product is already an exact
integer multiple of `step`, the final `quantize` never changes the value,
so the embedding is the truncated quotient times the step. -/
def round_qty (qty step : ℚ) : ℚ := (decimalFloorDiv qty step : ℚ) * step

/-- Embedding of `calculate_quantity(capital, leverage, price, symbol)` (`main.py`
lines 340-349).  The source fetches the symbol's lot step from the
exchange (`get_step_size`); here the step is passed directly as the
exchange-metadata parameter. -/
def calculate_quantity (capital leverage price step_size : ℚ) : ℚ :=
  round_qty (capital * leverage / price) step_size

/-- Follows the spec's words only (for comparison with
`calculate_quantity`): "qty = floor_to_step((capital*leverage)/price,
step_size)", i.e. the largest multiple of `step` not exceeding `x`. -/
def floor_to_step (x step : ℚ) : ℚ := (⌊x / step⌋ : ℚ) * step

/-- Round-half-to-even to an integer, as Python's builtin `round` does. -/
def roundHalfEven (x : ℚ) : ℤ :=
  if x - ⌊x⌋ < 1/2 then ⌊x⌋
  else if 1/2 < x - ⌊x⌋ then ⌊x⌋ + 1
  else if ⌊x⌋ % 2 = 0 then ⌊x⌋ else ⌊x⌋ + 1

/-- Python `round(x, 4)` on the idealized (rational) value. -/
def round4 (x : ℚ) : ℚ := (roundHalfEven (x * 10000) : ℚ) / 10000

/-- Directional PnL: `(close-entry)*qty` for BUY, `(entry-close)*qty`
otherwise (`main.py` lines 269-272). -/
def pnl_direction (signal : String) (entry close qty : ℚ) : ℚ :=
  if isBuy signal then (close - entry) * qty else (entry - close) * qty

/-- Embedding of `calculate_pnl(position, close_type, close_price=None)` (`main.py`
lines 246-277).  For `"TP"`/`"SL"` the close price is recomputed from the
entry price and the ladder percentages at `current_level`, overwriting any
caller-supplied `close_price`.  A ladder-index miss raises `IndexError`,
which the function's own `except` turns into a returned `0`.  For other
close types a supplied price is used; for `"MANUAL"` with no supplied
price the source falls back to `position.get("close_price", entry_price)`
— positions never store a `close_price` key, so that is the entry price
(PnL 0).  For a non-`"MANUAL"` type with no price, the arithmetic on
`None` raises, and the `except` returns `0`.  The result is
`round(pnl, 4)`. -/
def calculate_pnl (pos : Position) (close_type : String) (close_price? : Option ℚ) : ℚ :=
  let entry := pos.entry_price
  let qty := pos.quantity
  if close_type = "TP" then
    match LEVELS.get? (pos.current_level - 1) with
    | none => 0
    | some cfg =>
      let cp := if isBuy pos.signal then entry * (1 + cfg.tp_pct) else entry * (1 - cfg.tp_pct)
      round4 (pnl_direction pos.signal entry cp qty)
  else if close_type = "SL" then
    match LEVELS.get? (pos.current_level - 1) with
    | none => 0
    | some cfg =>
      let cp := if isBuy pos.signal then entry * (1 - cfg.sl_pct) else entry * (1 + cfg.sl_pct)
      round4 (pnl_direction pos.signal entry cp qty)
  else
    match close_price? with
    | some cp => round4 (pnl_direction pos.signal entry cp qty)
    | none =>
      if close_type = "MANUAL" then round4 (pnl_direction pos.signal entry entry qty)
      else 0

/-- Embedding of `get_position_amount(symbol)` (`main.py` lines 397-413).  The probe
lists the symbol's open orders; `query` is `.ok` with the list of order
type strings on a successful exchange query and `.error` when
`futures_get_open_orders` raises.  On any error the source returns `1.0`
("suppose que la position est active"); on success it returns `1.0` when
a `STOP_MARKET` or `TAKE_PROFIT_MARKET` order is present and `0.0`
otherwise. -/
def get_position_amount (query : Except Unit (List String)) : ℚ :=
  match query with
  | .error _ => 1
  | .ok order_types =>
    if order_types.any (fun t => t == "STOP_MARKET" || t == "TAKE_PROFIT_MARKET") then 1
    else 0

/-- Outcome of one status poll inside `wait_for_order_execution`
(`main.py` lines 352-378): either `futures_get_order` answered with a
status string and an average price, or the query itself raised. -/
inductive PollOutcome
  | ok (status : String) (avg_price : ℚ)
  | exn (msg : String)
deriving DecidableEq

/-- The body of the `try:` block of one poll attempt in
`wait_for_order_execution`.  `Except.error` is a raised exception:
either the query's own (`PollOutcome.exn`) or the explicit
`raise Exception(f"Ordre {status}")` on a terminal
CANCELED/EXPIRED/REJECTED status.  `.ok (some p)` is the `return avg_price`
on a FILLED order with positive average price; `.ok none` falls through to
the sleep and the next attempt. -/
def poll_attempt : PollOutcome → Except String (Option ℚ)
  | .exn msg => .error msg
  | .ok status avg =>
    if status = "FILLED" ∧ 0 < avg then .ok (some avg)
    else if status = "CANCELED" ∨ status = "EXPIRED" ∨ status = "REJECTED" then
      .error ("Ordre " ++ status)
    else .ok none

/-- Embedding of `wait_for_order_execution(symbol, order_id, max_attempts=10)`
(`main.py` lines 352-378).  `polls` is the sequence of poll outcomes, one
per attempt (its length is `max_attempts`).  Crucially, the `raise` for a
terminal CANCELED/EXPIRED/REJECTED status sits *inside* the same `try:`
whose `except Exception` catches every exception, logs a warning and
continues the loop — so every `.error` from `poll_attempt` makes the loop
keep polling, and after the attempts are exhausted the function returns
the current ticker price as the assumed fill price. -/
def wait_for_order_execution (polls : List PollOutcome) (ticker_price : ℚ) : ℚ :=
  match polls with
  | [] => ticker_price
  | p :: rest =>
    match poll_attempt p with
    | .ok (some price) => price
    | .ok none => wait_for_order_execution rest ticker_price
    | .error _ => wait_for_order_execution rest ticker_price

/-- File contents are modelled as character lists. -/
abbrev FileContent := List Char

/-- Embedding of `save_state(state)` (`main.py` lines 85-90): it opens the state file with
mode `"w"` — which truncates the file to length zero — and then
`json.dump` streams the serialized snapshot front to back.  `previous` is
the file content before the save, `serialized` the full new snapshot, and
`interrupt = some k` models a failure (crash, disk error) after `k`
characters were written; `none` is a completed save.  The result is what
a subsequent `load_state` reads.  `previous` does not occur in the body
precisely because the truncating open has already discarded it before the
first character is written. -/
def save_state_file (previous serialized : FileContent) (interrupt : Option Nat) : FileContent :=
  match interrupt with
  | none => serialized
  | some k => serialized.take k

/-- The exchange-entry outcome of `place_binance_order` (`main.py` lines
487-523): leverage set, market order submitted, fill price obtained via
`wait_for_order_execution`, protective orders placed with retry (each leg
independently nullable). -/
structure EntryResult where
  order_id : Nat
  entry_price : ℚ
  tp_order_id : Option Nat
  sl_order_id : Option Nat
deriving DecidableEq

/-- Environment of one `webhook` call: the exchange metadata and the
outcome of the external calls the handler makes. -/
structure Env where
  /-- lot step from `get_step_size` -/
  step_size : ℚ
  /-- outcome of `place_binance_order` (an `.error` is a raised exception) -/
  entry : Except String EntryResult
  /-- value of `datetime.now().isoformat()` -/
  now : String
  /-- value of `int(time.time())` -/
  now_epoch : Int
  /-- open-orders query behind `get_position_amount` -/
  position_query : Except Unit (List String)

/-- The distinct failure sites of the `webhook` handler.  Every raised
`HTTPException` is re-raised by the handler's outer `except Exception` as
a 500 wrapping the original detail string; the constructors record which
detail was raised: `invalidSignal` = "Signal ou prix manquant" (line 709),
`invalidQuantity` = "Quantité invalide" (lines 736, 818), `indexError` =
a ladder index out of range, `exchange msg` = an exception propagating
out of `place_binance_order`. -/
inductive WebhookError
  | invalidSignal
  | invalidQuantity
  | indexError
  | exchange (msg : String)
deriving DecidableEq

/-- Result of a `webhook` call: a raised error, a `{"status": "success"}`
JSON reply, or a `{"status": "ignored"}` reply with its reason. -/
inductive WebhookResult
  | httpError (e : WebhookError)
  | success (message : String)
  | ignored (reason : String)
deriving DecidableEq

/-- The dedup key `f"{symbol}_{signal}_{data.get('time', '')}"`
(`main.py` line 794); a missing `time` field degenerates to the empty
string. -/
def dedupKey (symbol signal : String) (time? : Option String) : String :=
  symbol ++ "_" ++ signal ++ "_" ++ time?.getD ""

/-- The reinforcement-activation branch of `webhook` (`main.py` lines
720-791), reached when the symbol's stored position has
`pending_reinforcement` set: opens at `next_level` in the direction of
the *new* signal, and on success updates the position in place
(`is_active=True`, `pending_reinforcement=False`, `current_level=next_level`,
new direction) and saves.  Failures leave the persisted state `st`
untouched (no `save_state` before the raise). -/
def reinforceBranch (env : Env) (st : State) (signal symbol : String) (price : ℚ)
    (pos : Position) : WebhookResult × State :=
  let next_level := pos.next_level
  match LEVELS.get? (next_level - 1) with
  | none => (.httpError .indexError, st)
  | some cfg =>
    let quantity := calculate_quantity cfg.capital cfg.leverage price env.step_size
    if quantity ≤ 0 then (.httpError .invalidQuantity, st)
    else
      match env.entry with
      | .error msg => (.httpError (.exchange msg), st)
      | .ok er =>
        let pos' : Position :=
          { pos with is_active := true, pending_reinforcement := false,
                     current_level := next_level, signal := signal,
                     quantity := quantity, entry_price := er.entry_price,
                     capital := cfg.capital, leverage := cfg.leverage,
                     order_id := er.order_id, tp_order_id := er.tp_order_id,
                     sl_order_id := er.sl_order_id, timestamp := env.now }
        let st' : State := { st with positions := insertPos st.positions symbol pos' }
        (.success ("Renforcement " ++ signal ++ " (Niveau " ++ toString next_level ++ ")"), st')

/-- The fresh-open tail of `webhook` (`main.py` lines 811-874): level-1
config, quantity check, entry + protection, persist the new position
record and the in-memory state `mem` (which already holds the dedup-key
insertion and any stale-position deletion).  On failure nothing was
saved, so the persisted state stays `origSt`. -/
def openNew (env : Env) (origSt mem : State) (signal symbol : String) (price : ℚ)
    (alert_id : String) : WebhookResult × State :=
  match LEVELS.get? 0 with
  | none => (.httpError .indexError, origSt)
  | some cfg =>
    let quantity := calculate_quantity cfg.capital cfg.leverage price env.step_size
    if quantity ≤ 0 then (.httpError .invalidQuantity, origSt)
    else
      match env.entry with
      | .error msg => (.httpError (.exchange msg), origSt)
      | .ok er =>
        let pos : Position :=
          { signal := signal, current_level := 1, is_active := true,
            quantity := quantity, entry_price := er.entry_price,
            capital := cfg.capital, leverage := cfg.leverage,
            order_id := er.order_id, tp_order_id := er.tp_order_id,
            sl_order_id := er.sl_order_id, alert_id := alert_id,
            timestamp := env.now, pending_reinforcement := false, next_level := 1 }
        let st' : State := { mem with positions := insertPos mem.positions symbol pos }
        (.success ("Position " ++ signal ++ " ouverte (Niveau 1)"), st')

/-- The deduplication and open path of `webhook` (`main.py` lines
793-874).  The dedup-key insertion at line 798 mutates only the in-memory
copy of the state: it reaches the file exclusively through the
`save_state` of a completed open, so the `"ignored"` exits return the
original persisted state `st` unchanged. -/
def dedupAndOpen (env : Env) (st : State) (signal symbol : String) (price : ℚ)
    (time? : Option String) : WebhookResult × State :=
  let alert_id := dedupKey symbol signal time?
  if memKey st.processed_alerts alert_id then (.ignored "duplicate_alert", st)
  else
    let mem : State :=
      { st with processed_alerts := st.processed_alerts ++ [(alert_id, env.now_epoch)] }
    match lookupPos mem.positions symbol with
    | some pos =>
      if pos.is_active then
        if get_position_amount env.position_query ≠ 0 then (.ignored "position_already_open", st)
        else openNew env st { mem with positions := erasePos mem.positions symbol }
               signal symbol price alert_id
      else openNew env st mem signal symbol price alert_id
    | none => openNew env st mem signal symbol price alert_id

/-- The `webhook` handler (`main.py` lines 698-881), modelled from the
point its JSON fields are extracted, under the symbol lock.  `signal?` is
`data.get("signal")` (absent = `none`; the empty string is equally falsy
in `not signal`); `price` is `float(data.get("price", 0))` so a missing
price arrives as `0`.  Validation rejects a falsy signal or `price == 0`.
The reinforcement check runs before the dedup check; the returned `State`
is the *persisted* snapshot after the call (only `save_state` points
change it). -/
def webhook (env : Env) (st : State) (signal? : Option String) (symbol : String)
    (price : ℚ) (time? : Option String) : WebhookResult × State :=
  match signal? with
  | none => (.httpError .invalidSignal, st)
  | some signal =>
    if signal = "" ∨ price = 0 then (.httpError .invalidSignal, st)
    else
      match lookupPos st.positions symbol with
      | some pos =>
        if pos.pending_reinforcement then reinforceBranch env st signal symbol price pos
        else dedupAndOpen env st signal symbol price time?
      | none => dedupAndOpen env st signal symbol price time?

/-- One audit-ledger row appended by `add_to_history("POSITION_CLOSED", ...)`
during a monitor-driven close, recording which close type fired. -/
structure TradeEvent where
  close_type : String
  symbol : String
  pnl : ℚ
deriving DecidableEq

/-- Environment of one symbol's processing inside a `monitor_loop`
iteration: outcomes of the external calls the loop body makes for that
symbol. -/
structure SymEnv where
  /-- seconds since the position's timestamp; `none` models a
  `datetime.fromisoformat` failure (caught, symbol skipped) -/
  time_diff : Option ℚ
  /-- result of `lock.acquire(blocking=False)` -/
  lock_available : Bool
  /-- result of `get_order_status` on the TP order: `none` covers a query error -/
  tp_status : Option String
  /-- result of `get_order_status` on the SL order -/
  sl_status : Option String
  /-- open-orders query behind `get_position_amount` -/
  position_query : Except Unit (List String)
  /-- result of `futures_symbol_ticker` during manual-close cleanup; this call has
  no local `try` and its exception propagates (`main.py` line 632) -/
  ticker : Except String ℚ

/-- Embedding of `handle_reinforcement(symbol, signal, current_level, state, position)`
(`main.py` lines 667-687): at the last ladder level the chain terminates
(`is_active=False`); otherwise the position becomes
`is_active=False, pending_reinforcement=True, next_level=current_level+1`.
Either way the state is saved.  The `signal` argument is only logged. -/
def handle_reinforcement (symbol : String) (_signal : String) (current_level : Nat)
    (st : State) (pos : Position) : State :=
  let next_level := current_level + 1
  if LEVELS.length < next_level then
    let pos' : Position := { pos with is_active := false }
    { st with positions := insertPos st.positions symbol pos' }
  else
    let pos' : Position :=
      { pos with is_active := false, pending_reinforcement := true, next_level := next_level }
    { st with positions := insertPos st.positions symbol pos' }

/-- One symbol's processing inside the monitor `for` loop (`main.py`
lines 535-660).  `.ok` carries the persisted state after the step and
the ledger rows it appended; `.error` is an exception escaping the
symbol's body (the per-symbol block has a `try/finally` for the lock but
*no* `except`, so it propagates to the iteration-level handler).  Checks
run in the source's priority order: grace window, non-blocking lock, TP
fill, SL fill, then the manual-close probe (itself guarded by the longer
60-second window and the always-succeeds-as-active error policy of
`get_position_amount`). -/
def monitorSymbolStep (env : SymEnv) (symbol : String) (pos : Position) (st : State) :
    Except String (State × List TradeEvent) :=
  if pos.is_active = false then .ok (st, [])
  else
    match env.time_diff with
    | none => .ok (st, [])
    | some td =>
      if td < 30 then .ok (st, [])
      else if env.lock_available = false then .ok (st, [])
      else
        let tpFired := pos.tp_order_id.isSome &&
          (env.tp_status == some "FILLED" || env.tp_status == some "TRIGGERED")
        if tpFired then
          let ev : TradeEvent := ⟨"TAKE_PROFIT", symbol, calculate_pnl pos "TP" none⟩
          let pos' : Position := { pos with is_active := false }
          .ok ({ st with positions := insertPos st.positions symbol pos' }, [ev])
        else
          let slFired := pos.sl_order_id.isSome &&
            (env.sl_status == some "FILLED" || env.sl_status == some "TRIGGERED")
          if slFired then
            let ev : TradeEvent := ⟨"STOP_LOSS", symbol, calculate_pnl pos "SL" none⟩
            .ok (handle_reinforcement symbol pos.signal pos.current_level st pos, [ev])
          else
            if get_position_amount env.position_query = 0 ∧ pos.is_active then
              if 60 < td then
                match env.ticker with
                | .error e => .error e
                | .ok price =>
                  let ev : TradeEvent := ⟨"MANUAL", symbol, calculate_pnl pos "MANUAL" (some price)⟩
                  let pos' : Position := { pos with is_active := false }
                  .ok ({ st with positions := insertPos st.positions symbol pos' }, [ev])
              else .ok (st, [])
            else .ok (st, [])

instance {ε α : Type} [DecidableEq ε] [DecidableEq α] : DecidableEq (Except ε α)
  | .error e, .error f =>
    if h : e = f then .isTrue (by rw [h]) else .isFalse (by intro hh; cases hh; exact h rfl)
  | .error _, .ok _ => .isFalse (by intro hh; cases hh)
  | .ok _, .error _ => .isFalse (by intro hh; cases hh)
  | .ok a, .ok b =>
    if h : a = b then .isTrue (by rw [h]) else .isFalse (by intro hh; cases hh; exact h rfl)

/-- Result of one `while True` iteration of `monitor_loop`: the persisted
state, the ledger rows appended, and — when a symbol's processing raised —
the error message the iteration-level `except Exception` logged. -/
structure IterResult where
  state : State
  events : List TradeEvent
  failed : Option String
deriving DecidableEq

/-- The `for symbol, position in list(positions.items())` loop of one
monitor iteration.  The `try/except` wrapping the whole iteration
(`main.py` lines 531-663) means the first symbol whose processing raises
aborts the remaining symbols of this iteration; the loop itself survives
and sleeps until the next cycle. -/
def monitorGo (envs : String → SymEnv) :
    List (String × Position) → State → List TradeEvent → IterResult
  | [], st, evs => ⟨st, evs, none⟩
  | (sym, pos) :: rest, st, evs =>
    match monitorSymbolStep (envs sym) sym pos st with
    | .ok (st', es) => monitorGo envs rest st' (evs ++ es)
    | .error e => ⟨st, evs, some e⟩

/-- One full iteration of `monitor_loop` over a snapshot of the loaded
position table. -/
def monitorIteration (envs : String → SymEnv) (st : State) : IterResult :=
  monitorGo envs st.positions st []

/-- A position never has `is_active` and `pending_reinforcement` both
true. -/
def posOkB (p : Position) : Bool := !(p.is_active && p.pending_reinforcement)

/-- Every persisted position satisfies `posOkB`. -/
def stateOkB (st : State) : Bool := st.positions.all (fun e => posOkB e.2)

section Lemmas

/-- For a nonnegative quotient, Decimal floor division is the floor. -/
theorem decimalFloorDiv_of_nonneg {q step : ℚ} (h : 0 ≤ q / step) :
    decimalFloorDiv q step = ⌊q / step⌋ := if_pos h

end Lemmas

/-- C3 (quantity sizing): for positive capital, leverage, price and lot
step, `calculate_quantity` equals the spec's
`floor_to_step((capital*leverage)/price, step_size)`; the result is an
exact integer multiple of the step and never exceeds the raw quantity
`(capital*leverage)/price` (rounding is down, never up or nearest); and
whenever the computed quantity is ≤ 0 the open path of the `webhook`
handler fails with the "Quantité invalide" error (`InvalidQuantity`)
and persists nothing. -/
theorem quantity_sizing (capital leverage price step_size : ℚ)
    (hc : 0 < capital) (hl : 0 < leverage) (hp : 0 < price) (hs : 0 < step_size) :
    calculate_quantity capital leverage price step_size
        = floor_to_step (capital * leverage / price) step_size ∧
    (∃ n : ℤ, calculate_quantity capital leverage price step_size = n * step_size) ∧
    calculate_quantity capital leverage price step_size ≤ capital * leverage / price ∧
    (∀ (env : Env) (st : State) (signal symbol : String) (time? : Option String),
      signal ≠ "" →
      lookupPos st.positions symbol = none →
      memKey st.processed_alerts (dedupKey symbol signal time?) = false →
      calculate_quantity 1 50 price env.step_size ≤ 0 →
      webhook env st (some signal) symbol price time? = (.httpError .invalidQuantity, st)) := by
  have hraw : 0 < capital * leverage / price := by positivity
  have hq : 0 ≤ capital * leverage / price / step_size := by positivity
  have heq : calculate_quantity capital leverage price step_size
      = floor_to_step (capital * leverage / price) step_size := by
    unfold calculate_quantity round_qty floor_to_step
    rw [decimalFloorDiv_of_nonneg hq]
  refine ⟨heq, ⟨⌊capital * leverage / price / step_size⌋, by
      rw [heq]; rfl⟩, ?_, ?_⟩
  · rw [heq]
    unfold floor_to_step
    calc (⌊capital * leverage / price / step_size⌋ : ℚ) * step_size
        ≤ capital * leverage / price / step_size * step_size := by
          exact mul_le_mul_of_nonneg_right (Int.floor_le _) (le_of_lt hs)
      _ = capital * leverage / price := div_mul_cancel₀ _ (ne_of_gt hs)
  · intro env st signal symbol time? hsig hpos hfresh hqle
    have hval : ¬(signal = "" ∨ price = 0) := by
      rintro (h | h)
      · exact hsig h
      · exact absurd h (ne_of_gt hp)
    simp only [webhook, hpos, if_neg hval]
    unfold dedupAndOpen
    simp only [hfresh, Bool.false_eq_true, if_false, hpos]
    unfold openNew
    have h0 : LEVELS.get? 0 = some ⟨1, 50, 3/1000, 3/1000⟩ := rfl
    rw [h0]
    simp only [if_pos hqle]

/-- Witness for C3 at the spec's own scenario: capital 1, leverage 50,
price 2000, step 0.001 — the computed quantity is 0.025 = 1/40. -/
theorem quantity_sizing_witness :
    (0 < (1 : ℚ) ∧ 0 < (50 : ℚ) ∧ 0 < (2000 : ℚ) ∧ 0 < (1/1000 : ℚ)) ∧
    calculate_quantity 1 50 2000 (1/1000) = 1/40 ∧
    calculate_quantity 1 50 2000 (1/1000)
        = floor_to_step (1 * 50 / 2000) (1/1000) := by
  refine ⟨by decide, by decide, ?_⟩
  exact (quantity_sizing 1 50 2000 (1/1000) (by decide) (by decide)
    (by decide) (by decide)).1

/-- C5 (code bug): the spec says an entry order polled in a terminal
`CANCELED`/`EXPIRED`/`REJECTED` status makes the open fail with
`OrderRejected`.  The source indeed raises `Exception(f"Ordre {status}")`
at that point — the second conjunct shows each such poll attempt raises —
but the raise sits inside the very `try:` block whose
`except Exception` catches every exception, logs a warning and continues
polling, so after `max_attempts` (10) rejected polls the function
*returns the ticker price* as the assumed fill price and the open
proceeds: no `OrderRejected` failure ever surfaces. -/
theorem rejected_entry_falls_back_to_ticker (ticker_price : ℚ) :
    wait_for_order_execution
        (List.replicate 10 (PollOutcome.ok "REJECTED" 0)) ticker_price = ticker_price ∧
    poll_attempt (PollOutcome.ok "REJECTED" 0) = .error "Ordre REJECTED" ∧
    poll_attempt (PollOutcome.ok "CANCELED" 0) = .error "Ordre CANCELED" ∧
    poll_attempt (PollOutcome.ok "EXPIRED" 0) = .error "Ordre EXPIRED" := by
  refine ⟨?_, rfl, rfl, rfl⟩
  simp [wait_for_order_execution, poll_attempt, List.replicate]

/-- C6 counterexample: a save of the 16-character snapshot
`{"positions": {}}`-like content interrupted after 4 characters leaves a
4-character prefix of the new snapshot — neither the previous snapshot
nor the new one, refuting "every save either fully replaces the persisted
snapshot or fails leaving the previous snapshot intact". -/
theorem save_interrupt_counterexample :
    ¬ (save_state_file ("\x7b\"positions\": \x7b\x7d\x7d".toList)
          ("\x7b\"positions\": \x7b\"ETHUSDC\": 1\x7d\x7d".toList) (some 4)
        = ("\x7b\"positions\": \x7b\"ETHUSDC\": 1\x7d\x7d".toList) ∨
       save_state_file ("\x7b\"positions\": \x7b\x7d\x7d".toList)
          ("\x7b\"positions\": \x7b\"ETHUSDC\": 1\x7d\x7d".toList) (some 4)
        = ("\x7b\"positions\": \x7b\x7d\x7d".toList)) := by
  decide

/-- C6 (amended): a `save_state` that runs to completion fully replaces
the persisted snapshot, but the state file is opened in truncating write
mode with no temp-file/rename step, so a failure after `k` characters
leaves exactly the first `k` characters of the *new* snapshot — a
truncated snapshot, not the previous one; all-or-nothing holds only for
saves that do not fail mid-write. -/
theorem save_state_amended (previous serialized : FileContent) (k : Nat)
    (hk : k < serialized.length) :
    save_state_file previous serialized none = serialized ∧
    save_state_file previous serialized (some k) = serialized.take k ∧
    save_state_file previous serialized (some k) ≠ serialized := by
  refine ⟨rfl, rfl, ?_⟩
  intro h
  have := congrArg List.length h
  simp only [save_state_file, List.length_take] at this
  omega

/-- Witness for C6 (amended) at a concrete interrupted save. -/
theorem save_state_amended_witness :
    4 < ("\x7b\"a\": 1\x7d".toList : FileContent).length ∧
    save_state_file ("\x7b\x7d".toList) ("\x7b\"a\": 1\x7d".toList) (some 4)
      = ("\x7b\"a\": 1\x7d".toList).take 4 := by
  exact ⟨by decide,
    (save_state_amended ("\x7b\x7d".toList) ("\x7b\"a\": 1\x7d".toList) 4 (by decide)).2.1⟩

section RoundLemmas

theorem floor_le_roundHalfEven (x : ℚ) : ⌊x⌋ ≤ roundHalfEven x := by
  unfold roundHalfEven
  split_ifs <;> omega

theorem roundHalfEven_nonpos {x : ℚ} (hx : x ≤ 0) : roundHalfEven x ≤ 0 := by
  have hfl : ⌊x⌋ ≤ 0 := Int.floor_nonpos hx
  have hle : (⌊x⌋ : ℚ) ≤ x := Int.floor_le x
  unfold roundHalfEven
  split_ifs with h1 h2 h3
  · exact hfl
  · rcases lt_or_eq_of_le hfl with hlt | he
    · omega
    · exfalso
      rw [he] at h2
      push_cast at h2
      linarith
  · exact hfl
  · rcases lt_or_eq_of_le hfl with hlt | he
    · omega
    · exfalso
      rw [he] at h1
      push_cast at h1
      linarith

theorem roundHalfEven_one_le {x : ℚ} (hx : 1 ≤ x) : 1 ≤ roundHalfEven x := by
  have h := floor_le_roundHalfEven x
  have h1 : (1 : ℤ) ≤ ⌊x⌋ := by
    rw [Int.le_floor]
    exact_mod_cast hx
  omega

theorem round4_pos_imp {x : ℚ} (h : 0 < round4 x) : 0 < x := by
  by_contra hx
  push_neg at hx
  have h10 : x * 10000 ≤ 0 := mul_nonpos_of_nonpos_of_nonneg hx (by norm_num)
  have hrhe := roundHalfEven_nonpos h10
  unfold round4 at h
  have hcast : (roundHalfEven (x * 10000) : ℚ) ≤ 0 := by exact_mod_cast hrhe
  nlinarith

theorem round4_pos_of_ge {x : ℚ} (h : 1/10000 ≤ x) : 0 < round4 x := by
  have h1 : (1 : ℚ) ≤ x * 10000 := by linarith
  have hrhe := roundHalfEven_one_le h1
  have hcast : (1 : ℚ) ≤ (roundHalfEven (x * 10000) : ℚ) := by exact_mod_cast hrhe
  unfold round4
  positivity

/-- Every ladder level carries the same 0.3% TP/SL percentages. -/
theorem LEVELS_pct {k : Nat} (hk : k < 5) :
    ∃ cfg, LEVELS.get? k = some cfg ∧ cfg.tp_pct = 3/1000 ∧ cfg.sl_pct = 3/1000 := by
  interval_cases k <;> exact ⟨_, rfl, rfl, rfl⟩

end RoundLemmas

/-- A concrete BUY position with a tiny quantity, used to exhibit the
rounding behaviour of `calculate_pnl`. -/
def pnlTinyPos : Position :=
  { signal := "BUY", current_level := 1, is_active := true,
    pending_reinforcement := false, next_level := 1, quantity := 1/1000,
    entry_price := 1, capital := 1, leverage := 50, order_id := 1,
    tp_order_id := some 2, sl_order_id := some 3, alert_id := "a",
    timestamp := "t" }

/-- C4 counterexample: for the BUY position `pnlTinyPos` (entry 1,
quantity 0.001) closed at 1.00001 > entry, `calculate_pnl` returns 0 —
not positive, and not equal to `(close-entry)*quantity = 1e-8` — because
the source rounds the product to 4 decimal places (`round(pnl, 4)`).
This refutes both "PnL equals (close-entry)*quantity" and "positive iff
close_price > entry_price" as literally stated. -/
theorem pnl_sign_counterexample :
    isBuy pnlTinyPos.signal = true ∧
    pnlTinyPos.entry_price < 100001/100000 ∧
    0 < pnlTinyPos.quantity ∧
    calculate_pnl pnlTinyPos "MANUAL" (some (100001/100000)) = 0 ∧
    (100001/100000 - pnlTinyPos.entry_price) * pnlTinyPos.quantity ≠ 0 := by
  decide

/-- C4 (amended): for close types TP and SL the close price is recomputed
from the entry price and the ladder percentages (±0.3% at every level),
ignoring any caller-supplied price; the returned PnL is
`(close-entry)*quantity` for BUY and `(entry-close)*quantity` for SELL
*rounded half-to-even to 4 decimal places*; and for positive quantity the
sign relation holds up to that rounding: a positive result implies
`close > entry` (BUY) resp. `close < entry` (SELL), and the result is
positive whenever the unrounded profit is at least 0.0001 (smaller true
profits may round to 0, as the counterexample shows). -/
theorem pnl_amended (pos : Position) (cp : ℚ) (cp1? cp2? : Option ℚ)
    (hcl : 1 ≤ pos.current_level) (hcl5 : pos.current_level ≤ 5)
    (hq : 0 < pos.quantity) :
    calculate_pnl pos "TP" cp1? = calculate_pnl pos "TP" cp2? ∧
    calculate_pnl pos "SL" cp1? = calculate_pnl pos "SL" cp2? ∧
    calculate_pnl pos "TP" cp1? = round4 (pnl_direction pos.signal pos.entry_price
        (if isBuy pos.signal then pos.entry_price * (1 + 3/1000)
         else pos.entry_price * (1 - 3/1000)) pos.quantity) ∧
    calculate_pnl pos "SL" cp1? = round4 (pnl_direction pos.signal pos.entry_price
        (if isBuy pos.signal then pos.entry_price * (1 - 3/1000)
         else pos.entry_price * (1 + 3/1000)) pos.quantity) ∧
    calculate_pnl pos "MANUAL" (some cp)
        = round4 (pnl_direction pos.signal pos.entry_price cp pos.quantity) ∧
    (isBuy pos.signal = true →
      (0 < calculate_pnl pos "MANUAL" (some cp) → pos.entry_price < cp) ∧
      (1/10000 ≤ (cp - pos.entry_price) * pos.quantity →
        0 < calculate_pnl pos "MANUAL" (some cp))) ∧
    (isBuy pos.signal = false →
      (0 < calculate_pnl pos "MANUAL" (some cp) → cp < pos.entry_price) ∧
      (1/10000 ≤ (pos.entry_price - cp) * pos.quantity →
        0 < calculate_pnl pos "MANUAL" (some cp))) := by
  obtain ⟨cfg, hget, htp, hsl⟩ := LEVELS_pct (show pos.current_level - 1 < 5 by omega)
  have hSLne : ("SL" : String) ≠ "TP" := by decide
  have hMANne1 : ("MANUAL" : String) ≠ "TP" := by decide
  have hMANne2 : ("MANUAL" : String) ≠ "SL" := by decide
  have hTP : ∀ cpo : Option ℚ, calculate_pnl pos "TP" cpo
      = round4 (pnl_direction pos.signal pos.entry_price
          (if isBuy pos.signal then pos.entry_price * (1 + 3/1000)
           else pos.entry_price * (1 - 3/1000)) pos.quantity) := by
    intro cpo
    simp only [calculate_pnl, if_pos rfl, if_true, if_false, hget, htp]
  have hSL : ∀ cpo : Option ℚ, calculate_pnl pos "SL" cpo
      = round4 (pnl_direction pos.signal pos.entry_price
          (if isBuy pos.signal then pos.entry_price * (1 - 3/1000)
           else pos.entry_price * (1 + 3/1000)) pos.quantity) := by
    intro cpo
    simp only [calculate_pnl, if_neg hSLne, if_pos rfl, if_true, if_false, hget, hsl]
  have hMAN : calculate_pnl pos "MANUAL" (some cp)
      = round4 (pnl_direction pos.signal pos.entry_price cp pos.quantity) := by
    simp only [calculate_pnl, if_neg hMANne1, if_neg hMANne2, if_true, if_false]
  refine ⟨(hTP cp1?).trans (hTP cp2?).symm, (hSL cp1?).trans (hSL cp2?).symm,
    hTP cp1?, hSL cp1?, hMAN, ?_, ?_⟩
  · intro hb
    have hdir : pnl_direction pos.signal pos.entry_price cp pos.quantity
        = (cp - pos.entry_price) * pos.quantity := by
      unfold pnl_direction
      rw [hb]
      simp
    constructor
    · intro hpnl
      rw [hMAN, hdir] at hpnl
      have hx := round4_pos_imp hpnl
      nlinarith
    · intro hge
      rw [hMAN, hdir]
      exact round4_pos_of_ge hge
  · intro hb
    have hdir : pnl_direction pos.signal pos.entry_price cp pos.quantity
        = (pos.entry_price - cp) * pos.quantity := by
      unfold pnl_direction
      rw [hb]
      simp
    constructor
    · intro hpnl
      rw [hMAN, hdir] at hpnl
      have hx := round4_pos_imp hpnl
      nlinarith
    · intro hge
      rw [hMAN, hdir]
      exact round4_pos_of_ge hge

/-- A concrete BUY position at level 1, entry 2000, quantity 0.025. -/
def pnlBuyPos : Position :=
  { signal := "BUY", current_level := 1, is_active := true,
    pending_reinforcement := false, next_level := 1, quantity := 1/40,
    entry_price := 2000, capital := 1, leverage := 50, order_id := 1,
    tp_order_id := some 2, sl_order_id := some 3, alert_id := "a",
    timestamp := "t" }

/-- Witness for C4 (amended): for `pnlBuyPos` the TP close price is
recomputed as 2000·1.003 = 2006 and the returned PnL is
round4(6·0.025) = 0.15 > 0. -/
theorem pnl_amended_witness :
    (1 ≤ pnlBuyPos.current_level ∧ pnlBuyPos.current_level ≤ 5 ∧ 0 < pnlBuyPos.quantity) ∧
    calculate_pnl pnlBuyPos "TP" none
      = round4 (pnl_direction pnlBuyPos.signal pnlBuyPos.entry_price
          (if isBuy pnlBuyPos.signal then pnlBuyPos.entry_price * (1 + 3/1000)
           else pnlBuyPos.entry_price * (1 - 3/1000)) pnlBuyPos.quantity) ∧
    0 < calculate_pnl pnlBuyPos "MANUAL" (some 2006) ∧
    calculate_pnl pnlBuyPos "MANUAL" (some 2006) = 3/20 := by
  refine ⟨⟨by decide, by decide, by decide⟩, ?_, ?_, by decide⟩
  · exact (pnl_amended pnlBuyPos 2006 none none (by decide) (by decide) (by decide)).2.2.1
  · exact ((pnl_amended pnlBuyPos 2006 none none (by decide) (by decide)
      (by decide)).2.2.2.2.2.1 (by decide)).2 (by decide)

/-- C9: the position-footprint probe `get_position_amount` answers `1.0`
("position still active") on *any* exchange-query error, so the monitor's
manual-close transition can never be triggered by a failed or timed-out
open-orders query: whenever a monitor step actually records a
`MANUAL` close, the open-orders query succeeded and reported no
open take-profit/stop-loss orders. -/
theorem footprint_error_means_active
    (env : SymEnv) (symbol : String) (pos : Position) (st st' : State)
    (evs : List TradeEvent)
    (hrun : monitorSymbolStep env symbol pos st = .ok (st', evs))
    (hmanual : evs.any (fun ev => ev.close_type == "MANUAL") = true) :
    (∀ u : Unit, get_position_amount (Except.error u) = 1) ∧
    ∃ orders, env.position_query = .ok orders ∧
      orders.any (fun t => t == "STOP_MARKET" || t == "TAKE_PROFIT_MARKET") = false ∧
      get_position_amount env.position_query = 0 := by
  refine ⟨fun u => rfl, ?_⟩
  simp only [monitorSymbolStep] at hrun
  split at hrun
  · cases hrun
    simp at hmanual
  split at hrun
  · cases hrun
    simp at hmanual
  split at hrun
  · cases hrun
    simp at hmanual
  split at hrun
  · cases hrun
    simp at hmanual
  split at hrun
  · cases hrun
    simp at hmanual
  split at hrun
  · cases hrun
    simp at hmanual
  split at hrun
  case _ hguard =>
    split at hrun
    · split at hrun
      · exact absurd hrun (by simp)
      case _ price hticker =>
        rcases hguard with ⟨hamt, _⟩
        rcases hq : env.position_query with u | orders
        · rw [hq] at hamt
          simp [get_position_amount] at hamt
        · have hamt' := hamt
          rw [hq] at hamt'
          have hany : orders.any (fun t => t == "STOP_MARKET" || t == "TAKE_PROFIT_MARKET")
              = false := by
            have h2 := hamt'
            simp only [get_position_amount] at h2
            by_contra hh
            rw [eq_true_of_ne_false hh] at h2
            simp at h2
          exact ⟨orders, rfl, hany, hamt'⟩
    · cases hrun
      simp at hmanual
  · cases hrun
    simp at hmanual

/-- A position eligible for the manual-close probe: active, both
protective order ids missing (legs failed to place), old enough. -/
def manualProbePos : Position :=
  { signal := "BUY", current_level := 1, is_active := true,
    pending_reinforcement := false, next_level := 1, quantity := 1/40,
    entry_price := 2000, capital := 1, leverage := 50, order_id := 7,
    tp_order_id := none, sl_order_id := none, alert_id := "a",
    timestamp := "t" }

/-- Monitor environment in which the open-orders query succeeds,
reports no protective orders, and the ticker answers 1990. -/
def manualProbeEnv : SymEnv :=
  { time_diff := some 100, lock_available := true, tp_status := none,
    sl_status := none, position_query := .ok [], ticker := .ok 1990 }

/-- Witness for C9: a concrete monitor step that does record a MANUAL
close, exhibiting the successful empty open-orders query behind it. -/
theorem footprint_error_means_active_witness :
    (monitorSymbolStep manualProbeEnv "ETHUSDC" manualProbePos
        { positions := [("ETHUSDC", manualProbePos)], processed_alerts := [] }).isOk = true ∧
    ∃ orders, manualProbeEnv.position_query = .ok orders ∧
      orders.any (fun t => t == "STOP_MARKET" || t == "TAKE_PROFIT_MARKET") = false ∧
      get_position_amount manualProbeEnv.position_query = 0 := by
  have hrun : monitorSymbolStep manualProbeEnv "ETHUSDC" manualProbePos
      { positions := [("ETHUSDC", manualProbePos)], processed_alerts := [] }
      = .ok ({ positions := [("ETHUSDC", { manualProbePos with is_active := false })],
               processed_alerts := [] },
             [⟨"MANUAL", "ETHUSDC", calculate_pnl manualProbePos "MANUAL" (some 1990)⟩]) := by
    decide
  refine ⟨by rw [hrun]; rfl, ?_⟩
  exact (footprint_error_means_active manualProbeEnv "ETHUSDC" manualProbePos _ _ _
    hrun (by decide)).2

section ListLemmas

theorem lookupPos_insertPos_self (l : List (String × Position)) (k : String) (v : Position) :
    lookupPos (insertPos l k v) k = some v := by
  induction l with
  | nil => simp [insertPos, lookupPos]
  | cons e rest ih =>
    rcases e with ⟨k', w⟩
    by_cases h : k' = k
    · simp [insertPos, h, lookupPos]
    · simp [insertPos, h, lookupPos, ih]

theorem memKey_append_self (l : List (String × Int)) (k : String) (t : Int) :
    memKey (l ++ [(k, t)]) k = true := by
  simp [memKey]

theorem all_insertPos {f : String × Position → Bool} {l : List (String × Position)}
    (hl : l.all f = true) {s : String} {v : Position} (hv : f (s, v) = true) :
    (insertPos l s v).all f = true := by
  induction l with
  | nil => simp [insertPos, hv]
  | cons e rest ih =>
    rcases e with ⟨k, w⟩
    simp only [List.all_cons, Bool.and_eq_true] at hl
    by_cases h : k = s
    · simp [insertPos, h, hv, hl.2]
    · simp only [insertPos, if_neg h, List.all_cons, Bool.and_eq_true]
      exact ⟨hl.1, ih hl.2⟩

theorem all_erasePos {f : String × Position → Bool} {l : List (String × Position)}
    (hl : l.all f = true) (s : String) : (erasePos l s).all f = true := by
  induction l with
  | nil => simp [erasePos]
  | cons e rest ih =>
    rcases e with ⟨k, w⟩
    simp only [List.all_cons, Bool.and_eq_true] at hl
    by_cases h : k = s
    · simp only [erasePos, if_pos h]
      exact hl.2
    · simp only [erasePos, if_neg h, List.all_cons, Bool.and_eq_true]
      exact ⟨hl.1, ih hl.2⟩

end ListLemmas

section WebhookShape

/-- The level-1 position record persisted by a successful fresh open
(`main.py` lines 844-859). -/
def openedPosition (quantity : ℚ) (signal alert_id now : String) (er : EntryResult) :
    Position :=
  { signal := signal, current_level := 1, is_active := true,
    quantity := quantity, entry_price := er.entry_price, capital := 1, leverage := 50,
    order_id := er.order_id, tp_order_id := er.tp_order_id, sl_order_id := er.sl_order_id,
    alert_id := alert_id, timestamp := now, pending_reinforcement := false, next_level := 1 }

/-- The in-place position update persisted by a successful reinforcement
activation (`main.py` lines 763-776). -/
def reinforcedPosition (pos : Position) (signal : String) (cfg : LevelConfig)
    (quantity : ℚ) (now : String) (er : EntryResult) : Position :=
  { pos with is_active := true, pending_reinforcement := false,
             current_level := pos.next_level, signal := signal,
             quantity := quantity, entry_price := er.entry_price,
             capital := cfg.capital, leverage := cfg.leverage,
             order_id := er.order_id, tp_order_id := er.tp_order_id,
             sl_order_id := er.sl_order_id, timestamp := now }

/-- Shape of a successful fresh open through `webhook`: the persisted
state gains the level-1 position and the dedup key. -/
theorem webhook_open_success
    (env : Env) (st : State) (signal symbol : String) (price : ℚ)
    (time? : Option String) (er : EntryResult)
    (hsig : signal ≠ "") (hpr : price ≠ 0)
    (hnopos : lookupPos st.positions symbol = none)
    (hfresh : memKey st.processed_alerts (dedupKey symbol signal time?) = false)
    (hq : ¬ calculate_quantity 1 50 price env.step_size ≤ 0)
    (hentry : env.entry = .ok er) :
    webhook env st (some signal) symbol price time?
      = (.success ("Position " ++ signal ++ " ouverte (Niveau 1)"),
         { positions := insertPos st.positions symbol
             (openedPosition (calculate_quantity 1 50 price env.step_size) signal
               (dedupKey symbol signal time?) env.now er),
           processed_alerts := st.processed_alerts
             ++ [(dedupKey symbol signal time?, env.now_epoch)] }) := by
  have hval : ¬(signal = "" ∨ price = 0) := by
    rintro (h | h)
    · exact hsig h
    · exact hpr h
  simp only [webhook, hnopos, if_neg hval]
  unfold dedupAndOpen
  simp only [hfresh, Bool.false_eq_true, if_false, hnopos]
  unfold openNew
  have h0 : LEVELS.get? 0 = some ⟨1, 50, 3/1000, 3/1000⟩ := rfl
  rw [h0]
  simp only [if_neg hq, hentry]
  rfl

/-- Shape of a successful reinforcement activation through `webhook`:
the symbol's position is replaced in place, the dedup table untouched. -/
theorem webhook_reinforce_success
    (env : Env) (st : State) (signal symbol : String) (price : ℚ)
    (time? : Option String) (pos : Position) (cfg : LevelConfig) (er : EntryResult)
    (hsig : signal ≠ "") (hpr : price ≠ 0)
    (hpos : lookupPos st.positions symbol = some pos)
    (hpend : pos.pending_reinforcement = true)
    (hcfg : LEVELS.get? (pos.next_level - 1) = some cfg)
    (hq : ¬ calculate_quantity cfg.capital cfg.leverage price env.step_size ≤ 0)
    (hentry : env.entry = .ok er) :
    webhook env st (some signal) symbol price time?
      = (.success ("Renforcement " ++ signal ++ " (Niveau " ++ toString pos.next_level ++ ")"),
         { positions := insertPos st.positions symbol
             (reinforcedPosition pos signal cfg
               (calculate_quantity cfg.capital cfg.leverage price env.step_size)
               env.now er),
           processed_alerts := st.processed_alerts }) := by
  have hval : ¬(signal = "" ∨ price = 0) := by
    rintro (h | h)
    · exact hsig h
    · exact hpr h
  simp only [webhook, hpos, if_neg hval, hpend, if_true]
  simp only [reinforceBranch]
  rw [hcfg]
  simp only [if_neg hq, hentry]
  rfl

end WebhookShape

/-- C1 (reinforcement activation): for any inbound signal for a symbol
whose stored position has `pending_reinforcement = true`, the handler
takes the reinforcement branch before — and instead of — the
deduplication check: the dedup table is left untouched (in particular the
theorem holds for an *arbitrary* `processed_alerts` table, even one
already containing this signal's key), and the resulting persisted
position has `signal` equal to the new signal's direction (the previous
direction `pos.signal` is arbitrary), `current_level` equal to the stored
`next_level`, `is_active = true` and `pending_reinforcement = false`. -/
theorem reinforcement_priority
    (env : Env) (st : State) (signal symbol : String) (price : ℚ)
    (time? : Option String) (pos : Position) (cfg : LevelConfig) (er : EntryResult)
    (hsig : signal ≠ "") (hpr : price ≠ 0)
    (hpos : lookupPos st.positions symbol = some pos)
    (hpend : pos.pending_reinforcement = true)
    (hcfg : LEVELS.get? (pos.next_level - 1) = some cfg)
    (hq : ¬ calculate_quantity cfg.capital cfg.leverage price env.step_size ≤ 0)
    (hentry : env.entry = .ok er) :
    (webhook env st (some signal) symbol price time?).1
        = .success ("Renforcement " ++ signal ++ " (Niveau " ++ toString pos.next_level ++ ")") ∧
    (webhook env st (some signal) symbol price time?).2.processed_alerts
        = st.processed_alerts ∧
    ∃ pos', lookupPos (webhook env st (some signal) symbol price time?).2.positions symbol
        = some pos' ∧
      pos'.signal = signal ∧ pos'.current_level = pos.next_level ∧
      pos'.is_active = true ∧ pos'.pending_reinforcement = false := by
  rw [webhook_reinforce_success env st signal symbol price time? pos cfg er
    hsig hpr hpos hpend hcfg hq hentry]
  refine ⟨rfl, rfl, ?_⟩
  refine ⟨_, lookupPos_insertPos_self _ _ _, rfl, rfl, rfl, rfl⟩

/-- The stopped-out BUY position of the spec's scenario: stopped at
level 1, awaiting reinforcement at level 2. -/
def stoppedBuyPos : Position :=
  { signal := "BUY", current_level := 1, is_active := false,
    pending_reinforcement := true, next_level := 2, quantity := 1/40,
    entry_price := 2000, capital := 1, leverage := 50, order_id := 5,
    tp_order_id := some 6, sl_order_id := some 7, alert_id := "ETHUSDC_BUY_",
    timestamp := "t0" }

/-- Webhook environment for the reinforcement witness. -/
def reinforceEnv : Env :=
  { step_size := 1/1000, entry := .ok ⟨11, 1994, some 12, some 13⟩,
    now := "t1", now_epoch := 100, position_query := .ok [] }

/-- State holding the stopped-out BUY position — and, to exhibit the
priority over deduplication, a dedup table that already contains the
incoming SELL signal's key. -/
def reinforceSt : State :=
  { positions := [("ETHUSDC", stoppedBuyPos)],
    processed_alerts := [("ETHUSDC_SELL_", 50)] }

/-- Witness for C1: the spec's scenario — a SELL signal activates the
pending reinforcement of a position stopped out on a BUY, producing an
ACTIVE SELL position at level 2, with the (already-present) dedup key
ignored and the dedup table unchanged. -/
theorem reinforcement_priority_witness :
    ("SELL" ≠ "" ∧ (1994 : ℚ) ≠ 0 ∧
     lookupPos reinforceSt.positions "ETHUSDC" = some stoppedBuyPos ∧
     stoppedBuyPos.pending_reinforcement = true ∧
     memKey reinforceSt.processed_alerts (dedupKey "ETHUSDC" "SELL" none) = true) ∧
    (webhook reinforceEnv reinforceSt (some "SELL") "ETHUSDC" 1994 none).1
        = .success "Renforcement SELL (Niveau 2)" ∧
    (webhook reinforceEnv reinforceSt (some "SELL") "ETHUSDC" 1994 none).2.processed_alerts
        = reinforceSt.processed_alerts ∧
    ∃ pos', lookupPos
        (webhook reinforceEnv reinforceSt (some "SELL") "ETHUSDC" 1994 none).2.positions
        "ETHUSDC" = some pos' ∧
      pos'.signal = "SELL" ∧ pos'.current_level = stoppedBuyPos.next_level ∧
      pos'.is_active = true ∧ pos'.pending_reinforcement = false := by
  refine ⟨⟨by decide, by decide, by decide, by decide, by decide⟩, ?_⟩
  exact reinforcement_priority reinforceEnv reinforceSt "SELL" "ETHUSDC" 1994 none
    stoppedBuyPos ⟨2, 50, 3/1000, 3/1000⟩ ⟨11, 1994, some 12, some 13⟩
    (by decide) (by decide) (by decide) (by decide) (by decide) (by decide) (by decide)

/-- C10 (time-less dedup key): the dedup key of a signal with no `time`
field degenerates to `symbol ++ "_" ++ direction ++ "_"`; a first
accepted time-less open records exactly that key in the persisted dedup
table; and afterwards *every* later time-less signal with the same symbol
and direction that does not hit the reinforcement branch is answered
`ignored/duplicate_alert` with the persisted state unchanged — for an
arbitrary later environment `env2` (in particular arbitrarily much later:
entries of `processed_alerts` are never removed and carry no expiry). -/
theorem dedup_timeless_key
    (env1 env2 : Env) (st : State) (signal symbol : String) (price price2 : ℚ)
    (er : EntryResult)
    (hsig : signal ≠ "") (hpr : price ≠ 0) (hpr2 : price2 ≠ 0)
    (hnopos : lookupPos st.positions symbol = none)
    (hfresh : memKey st.processed_alerts (dedupKey symbol signal none) = false)
    (hq : ¬ calculate_quantity 1 50 price env1.step_size ≤ 0)
    (hentry : env1.entry = .ok er) :
    dedupKey symbol signal none = symbol ++ "_" ++ signal ++ "_" ∧
    (webhook env1 st (some signal) symbol price none).1
        = .success ("Position " ++ signal ++ " ouverte (Niveau 1)") ∧
    memKey (webhook env1 st (some signal) symbol price none).2.processed_alerts
        (dedupKey symbol signal none) = true ∧
    webhook env2 (webhook env1 st (some signal) symbol price none).2
        (some signal) symbol price2 none
      = (.ignored "duplicate_alert", (webhook env1 st (some signal) symbol price none).2) := by
  have h1 := webhook_open_success env1 st signal symbol price none er
    hsig hpr hnopos hfresh hq hentry
  rw [h1]
  have hval2 : ¬(signal = "" ∨ price2 = 0) := by
    rintro (h | h)
    · exact hsig h
    · exact hpr2 h
  have hpend : (openedPosition (calculate_quantity 1 50 price env1.step_size) signal
      (dedupKey symbol signal none) env1.now er).pending_reinforcement = false := rfl
  refine ⟨by simp [dedupKey], rfl, memKey_append_self _ _ _, ?_⟩
  simp only [webhook, if_neg hval2, lookupPos_insertPos_self, hpend,
    Bool.false_eq_true, if_false]
  unfold dedupAndOpen
  simp only [memKey_append_self, if_true]

/-- Witness for C10: two identical time-less BUY signals; the first opens
a level-1 position, the second is answered `ignored/duplicate_alert`. -/
theorem dedup_timeless_key_witness :
    dedupKey "ETHUSDC" "BUY" none = "ETHUSDC_BUY_" ∧
    (webhook reinforceEnv ⟨[], []⟩ (some "BUY") "ETHUSDC" 2000 none).1
        = .success "Position BUY ouverte (Niveau 1)" ∧
    webhook reinforceEnv (webhook reinforceEnv ⟨[], []⟩ (some "BUY") "ETHUSDC" 2000 none).2
        (some "BUY") "ETHUSDC" 2000 none
      = (.ignored "duplicate_alert",
         (webhook reinforceEnv ⟨[], []⟩ (some "BUY") "ETHUSDC" 2000 none).2) := by
  have h := dedup_timeless_key reinforceEnv reinforceEnv ⟨[], []⟩ "BUY" "ETHUSDC" 2000 2000
    ⟨11, 1994, some 12, some 13⟩ (by decide) (by decide) (by decide) (by decide)
    (by decide) (by decide) (by decide)
  exact ⟨h.1, h.2.1, h.2.2.2⟩

section ValidationLemmas

/-- No exit of the reinforcement branch raises the validation error. -/
theorem reinforceBranch_ne_invalidSignal (env : Env) (st : State) (signal symbol : String)
    (price : ℚ) (pos : Position) :
    (reinforceBranch env st signal symbol price pos).1 ≠ .httpError .invalidSignal := by
  simp only [reinforceBranch]
  rcases hL : LEVELS.get? (pos.next_level - 1) with _ | cfg
  · simp [hL]
  · simp only [hL]
    by_cases hq : calculate_quantity cfg.capital cfg.leverage price env.step_size ≤ 0
    · simp [hq]
    · rcases hE : env.entry with msg | er
      · simp [hq, hE]
      · simp [hq, hE]

/-- No exit of the fresh-open tail raises the validation error. -/
theorem openNew_ne_invalidSignal (env : Env) (origSt mem : State) (signal symbol : String)
    (price : ℚ) (alert_id : String) :
    (openNew env origSt mem signal symbol price alert_id).1 ≠ .httpError .invalidSignal := by
  simp only [openNew]
  have h0 : LEVELS.get? 0 = some ⟨1, 50, 3/1000, 3/1000⟩ := rfl
  simp only [h0]
  by_cases hq : calculate_quantity 1 50 price env.step_size ≤ 0
  · simp [hq]
  · rcases hE : env.entry with msg | er
    · simp [hq, hE]
    · simp [hq, hE]

/-- No exit of the dedup/open path raises the validation error. -/
theorem dedupAndOpen_ne_invalidSignal (env : Env) (st : State) (signal symbol : String)
    (price : ℚ) (time? : Option String) :
    (dedupAndOpen env st signal symbol price time?).1 ≠ .httpError .invalidSignal := by
  simp only [dedupAndOpen]
  by_cases hm : memKey st.processed_alerts (dedupKey symbol signal time?) = true
  · simp [hm]
  · simp only [Bool.not_eq_true] at hm
    simp only [hm, Bool.false_eq_true, if_false]
    rcases hp : lookupPos st.positions symbol with _ | pos
    · simp only [hp]
      apply openNew_ne_invalidSignal
    · simp only [hp]
      by_cases ha : pos.is_active = true
      · by_cases hz : get_position_amount env.position_query ≠ 0
        · simp [ha, hz]
        · simp only [ha, if_true, hz, if_false]
          apply openNew_ne_invalidSignal
      · simp only [Bool.not_eq_true] at ha
        simp only [ha, Bool.false_eq_true, if_false]
        apply openNew_ne_invalidSignal

end ValidationLemmas

/-- Webhook environment for the negative-price run. -/
def negPriceEnv : Env :=
  { step_size := 1/1000, entry := .ok ⟨21, 2000, some 22, some 23⟩,
    now := "t2", now_epoch := 7, position_query := .ok [] }

/-- C7 counterexample: a signal with direction "BUY" and *negative* price
-1 passes the handler's validation — the source checks `price == 0`, not
`price > 0` — and proceeds into the open path, where it fails only later
with the "Quantité invalide" error (`InvalidQuantity`), not with the
validation error "Signal ou prix manquant" (`InvalidSignal`).  This
refutes "fails with InvalidSignal iff ... the price is not strictly
greater than 0; in particular a signal with a negative price is
rejected [by validation]". -/
theorem negative_price_counterexample :
    webhook negPriceEnv ⟨[], []⟩ (some "BUY") "ETHUSDC" (-1) none
      = (.httpError .invalidQuantity, ⟨[], []⟩) ∧
    WebhookError.invalidQuantity ≠ WebhookError.invalidSignal := by
  exact ⟨by decide, by decide⟩

/-- C7 (amended): the handler fails with the validation error
"Signal ou prix manquant" (`InvalidSignal`) if and only if the signal
direction is absent (or empty) or the price *equals* 0 — not "is not
strictly greater than 0": a negative price passes validation (and is only
caught later by the quantity check, as the counterexample shows). -/
theorem signal_validation_amended (env : Env) (st : State) (signal? : Option String)
    (symbol : String) (price : ℚ) (time? : Option String) :
    (webhook env st signal? symbol price time?).1 = .httpError .invalidSignal
      ↔ (signal? = none ∨ signal? = some "" ∨ price = 0) := by
  constructor
  · intro h
    match signal? with
    | none => exact Or.inl rfl
    | some signal =>
      by_cases hval : signal = "" ∨ price = 0
      · rcases hval with h1 | h2
        · exact Or.inr (Or.inl (by rw [h1]))
        · exact Or.inr (Or.inr h2)
      · exfalso
        simp only [webhook, if_neg hval] at h
        rcases hp : lookupPos st.positions symbol with _ | pos
        · simp only [hp] at h
          exact dedupAndOpen_ne_invalidSignal env st signal symbol price time? h
        · simp only [hp] at h
          by_cases hpend : pos.pending_reinforcement
          · rw [if_pos hpend] at h
            exact reinforceBranch_ne_invalidSignal env st signal symbol price pos h
          · rw [if_neg hpend] at h
            exact dedupAndOpen_ne_invalidSignal env st signal symbol price time? h
  · rintro (h | h | h)
    · rw [h]
      rfl
    · rw [h]
      simp [webhook]
    · match signal? with
      | none => rfl
      | some s => simp [webhook, h]

section InvariantLemmas

theorem stateOkB_reinforceBranch (env : Env) (st : State) (signal symbol : String)
    (price : ℚ) (pos : Position) (h : stateOkB st = true) :
    stateOkB (reinforceBranch env st signal symbol price pos).2 = true := by
  simp only [reinforceBranch]
  rcases hL : LEVELS.get? (pos.next_level - 1) with _ | cfg
  · simp only [hL]
    exact h
  · simp only [hL]
    by_cases hq : calculate_quantity cfg.capital cfg.leverage price env.step_size ≤ 0
    · simp only [if_pos hq]
      exact h
    · rcases hE : env.entry with msg | er
      · simp only [if_neg hq, hE]
        exact h
      · simp only [if_neg hq, hE]
        exact all_insertPos h rfl

theorem stateOkB_openNew (env : Env) (origSt mem : State) (signal symbol : String)
    (price : ℚ) (alert_id : String) (h : stateOkB origSt = true)
    (hmem : stateOkB mem = true) :
    stateOkB (openNew env origSt mem signal symbol price alert_id).2 = true := by
  simp only [openNew]
  have h0 : LEVELS.get? 0 = some ⟨1, 50, 3/1000, 3/1000⟩ := rfl
  simp only [h0]
  by_cases hq : calculate_quantity 1 50 price env.step_size ≤ 0
  · simp only [if_pos hq]
    exact h
  · rcases hE : env.entry with msg | er
    · simp only [if_neg hq, hE]
      exact h
    · simp only [if_neg hq, hE]
      exact all_insertPos hmem rfl

theorem stateOkB_dedupAndOpen (env : Env) (st : State) (signal symbol : String)
    (price : ℚ) (time? : Option String) (h : stateOkB st = true) :
    stateOkB (dedupAndOpen env st signal symbol price time?).2 = true := by
  simp only [dedupAndOpen]
  by_cases hm : memKey st.processed_alerts (dedupKey symbol signal time?) = true
  · simp only [hm, if_true]
    exact h
  · simp only [Bool.not_eq_true] at hm
    simp only [hm, Bool.false_eq_true, if_false]
    rcases hp : lookupPos st.positions symbol with _ | pos
    · simp only [hp]
      exact stateOkB_openNew _ _ _ _ _ _ _ h h
    · simp only [hp]
      by_cases ha : pos.is_active = true
      · by_cases hz : get_position_amount env.position_query ≠ 0
        · simp only [ha, if_true, if_pos hz]
          exact h
        · simp only [ha, if_true, if_neg hz]
          refine stateOkB_openNew _ _ _ _ _ _ _ h ?_
          exact all_erasePos h _
      · simp only [Bool.not_eq_true] at ha
        simp only [ha, Bool.false_eq_true, if_false]
        exact stateOkB_openNew _ _ _ _ _ _ _ h h

theorem stateOkB_webhook (env : Env) (st : State) (signal? : Option String)
    (symbol : String) (price : ℚ) (time? : Option String) (h : stateOkB st = true) :
    stateOkB (webhook env st signal? symbol price time?).2 = true := by
  match signal? with
  | none => exact h
  | some signal =>
    by_cases hval : signal = "" ∨ price = 0
    · simp only [webhook, if_pos hval]
      exact h
    · simp only [webhook, if_neg hval]
      rcases hp : lookupPos st.positions symbol with _ | pos
      · simp only [hp]
        exact stateOkB_dedupAndOpen _ _ _ _ _ _ h
      · simp only [hp]
        by_cases hpend : pos.pending_reinforcement = true
        · simp only [hpend, if_true]
          exact stateOkB_reinforceBranch _ _ _ _ _ _ h
        · simp only [Bool.not_eq_true] at hpend
          simp only [hpend, Bool.false_eq_true, if_false]
          exact stateOkB_dedupAndOpen _ _ _ _ _ _ h

theorem stateOkB_handle_reinforcement (symbol _signal : String) (current_level : Nat)
    (st : State) (pos : Position) (h : stateOkB st = true) :
    stateOkB (handle_reinforcement symbol _signal current_level st pos) = true := by
  simp only [handle_reinforcement]
  by_cases hmax : LEVELS.length < current_level + 1
  · simp only [if_pos hmax]
    exact all_insertPos h rfl
  · simp only [if_neg hmax]
    exact all_insertPos h rfl

theorem stateOkB_monitorSymbolStep (env : SymEnv) (sym : String) (pos : Position)
    (st st' : State) (evs : List TradeEvent)
    (hrun : monitorSymbolStep env sym pos st = .ok (st', evs))
    (h : stateOkB st = true) : stateOkB st' = true := by
  simp only [monitorSymbolStep] at hrun
  split at hrun
  · cases hrun
    exact h
  split at hrun
  · cases hrun
    exact h
  split at hrun
  · cases hrun
    exact h
  split at hrun
  · cases hrun
    exact h
  split at hrun
  · cases hrun
    exact all_insertPos h rfl
  split at hrun
  · cases hrun
    exact stateOkB_handle_reinforcement _ _ _ _ _ h
  split at hrun
  · split at hrun
    · split at hrun
      · exact absurd hrun (by simp)
      · cases hrun
        exact all_insertPos h rfl
    · cases hrun
      exact h
  · cases hrun
    exact h

theorem stateOkB_monitorGo (envs : String → SymEnv) (l : List (String × Position))
    (st : State) (evs : List TradeEvent) (h : stateOkB st = true) :
    stateOkB (monitorGo envs l st evs).state = true := by
  induction l generalizing st evs with
  | nil => exact h
  | cons e rest ih =>
    rcases e with ⟨sym, pos⟩
    unfold monitorGo
    rcases hstep : monitorSymbolStep (envs sym) sym pos st with e' | ⟨st', es⟩
    · exact h
    · exact ih st' (evs ++ es) (stateOkB_monitorSymbolStep _ _ _ _ _ _ hstep h)

end InvariantLemmas

/-- C2 (mutual exclusion): if every persisted position satisfies
"not (`is_active` and `pending_reinforcement`)" (`stateOkB`), then the
state persisted after any `webhook` call (fresh open, reinforcement
activation, dedup/busy/invalid exits) and after any full monitor
iteration (TP close, SL close with or without a further ladder level,
manual-close cleanup) still satisfies it: the two flags are never both
true in any persisted position produced by any operation. -/
theorem mutual_exclusion_invariant
    (env : Env) (st : State) (signal? : Option String) (symbol : String)
    (price : ℚ) (time? : Option String) (envs : String → SymEnv)
    (h : stateOkB st = true) :
    stateOkB (webhook env st signal? symbol price time?).2 = true ∧
    stateOkB (monitorIteration envs st).state = true :=
  ⟨stateOkB_webhook env st signal? symbol price time? h,
   stateOkB_monitorGo envs st.positions st [] h⟩

/-- Monitor environment that fires the stop-loss leg. -/
def slFiredEnv : SymEnv :=
  { time_diff := some 100, lock_available := true, tp_status := some "NEW",
    sl_status := some "FILLED", position_query := .ok ["STOP_MARKET"],
    ticker := .ok 1994 }

/-- An active BUY position at level 1 (protective legs placed). -/
def activeBuyPos : Position :=
  { signal := "BUY", current_level := 1, is_active := true,
    pending_reinforcement := false, next_level := 1, quantity := 1/40,
    entry_price := 2000, capital := 1, leverage := 50, order_id := 5,
    tp_order_id := some 6, sl_order_id := some 7, alert_id := "ETHUSDC_BUY_",
    timestamp := "t0" }

/-- Witness for C2: a state with one active position; a reinforcement
activation through `webhook` and a stop-loss-driven monitor iteration
(which sets `pending_reinforcement := true` after deactivating) both
preserve the invariant. -/
theorem mutual_exclusion_invariant_witness :
    stateOkB reinforceSt = true ∧
    stateOkB (webhook reinforceEnv reinforceSt (some "SELL") "ETHUSDC" 1994 none).2 = true ∧
    stateOkB (monitorIteration (fun _ => slFiredEnv)
        { positions := [("ETHUSDC", activeBuyPos)], processed_alerts := [] }).state = true := by
  refine ⟨by decide, ?_, ?_⟩
  · exact (mutual_exclusion_invariant reinforceEnv reinforceSt (some "SELL") "ETHUSDC"
      1994 none (fun _ => slFiredEnv) (by decide)).1
  · exact (mutual_exclusion_invariant reinforceEnv
      { positions := [("ETHUSDC", activeBuyPos)], processed_alerts := [] }
      (some "SELL") "ETHUSDC" 1994 none (fun _ => slFiredEnv) (by decide)).2

/-- Monitor environment whose manual-close probe path raises on the
ticker fetch (`futures_symbol_ticker` has no local try/except in the
loop body). -/
def tickerErrEnv : SymEnv :=
  { time_diff := some 100, lock_available := true, tp_status := none,
    sl_status := none, position_query := .ok [], ticker := .error "timeout" }

/-- Monitor environment whose take-profit order reports FILLED. -/
def tpFiredEnv : SymEnv :=
  { time_diff := some 100, lock_available := true, tp_status := some "FILLED",
    sl_status := some "NEW", position_query := .ok ["TAKE_PROFIT_MARKET"],
    ticker := .ok 2006 }

/-- Per-symbol monitor environments: symbol AAA's processing raises
(ticker error inside the manual-close branch), symbol BBB's take-profit
has filled. -/
def monEnvsCE : String → SymEnv := fun s => if s = "AAA" then tickerErrEnv else tpFiredEnv

/-- Two-position state: AAA (no protective legs, headed for the
manual-close probe) and BBB (active, TP filled). -/
def stAB : State :=
  { positions := [("AAA", manualProbePos), ("BBB", activeBuyPos)],
    processed_alerts := [] }

/-- The record `activeBuyPos` after its take-profit close. -/
def closedBuyPos : Position := { activeBuyPos with is_active := false }

/-- C8 counterexample: in the iteration over `stAB`, symbol AAA's
processing raises "timeout"; the iteration aborts — BBB's position stays
untouched (still active) even though BBB's take-profit has filled, and
processing BBB alone in the same state *would* have closed it.  This
refutes "an error on one symbol does not prevent the remaining symbols'
positions from being processed in that same iteration". -/
theorem monitor_error_skips_rest_counterexample :
    (monitorIteration monEnvsCE stAB).failed = some "timeout" ∧
    (monitorIteration monEnvsCE stAB).state = stAB ∧
    lookupPos (monitorIteration monEnvsCE stAB).state.positions "BBB" = some activeBuyPos ∧
    activeBuyPos.is_active = true ∧
    monitorSymbolStep (monEnvsCE "BBB") "BBB" activeBuyPos stAB
      = .ok ({ positions := [("AAA", manualProbePos), ("BBB", closedBuyPos)],
               processed_alerts := [] },
             [⟨"TAKE_PROFIT", "BBB", calculate_pnl activeBuyPos "TP" none⟩]) := by
  decide

/-- C8 (amended): an error raised while processing one symbol's position
is caught only by the `except` wrapping the *whole* iteration, so the
monitor loop itself never terminates — the iteration returns with the
error merely logged (`failed`) and the `while True` loop sleeps and runs
again — but the current iteration is aborted: the state is left exactly
as it was before the failing symbol and the remaining symbols (`rest`)
are skipped until the next cycle (the result does not depend on `rest`
at all). -/
theorem monitor_error_isolation_amended
    (envs : String → SymEnv) (st : State) (sym : String) (pos : Position)
    (rest : List (String × Position)) (evs : List TradeEvent) (e : String)
    (hstep : monitorSymbolStep (envs sym) sym pos st = .error e) :
    monitorGo envs ((sym, pos) :: rest) st evs = ⟨st, evs, some e⟩ := by
  unfold monitorGo
  rw [hstep]

/-- Witness for C8 (amended) at the concrete two-symbol scenario. -/
theorem monitor_error_isolation_amended_witness :
    monitorSymbolStep (monEnvsCE "AAA") "AAA" manualProbePos stAB = .error "timeout" ∧
    monitorGo monEnvsCE [("AAA", manualProbePos), ("BBB", activeBuyPos)] stAB []
      = ⟨stAB, [], some "timeout"⟩ := by
  refine ⟨by decide, ?_⟩
  exact monitor_error_isolation_amended monEnvsCE stAB "AAA" manualProbePos
    [("BBB", activeBuyPos)] [] "timeout" (by decide)

end RenderV3
